import Mathlib

/-!
Shallow embedding of the multimodal video transcriber
(`src/config.py`, `src/models.py`, `src/transcriber.py`).

Conventions of the embedding:
* Python `timedelta` values are rationals counting seconds; Python floats
  (the `fps` sampling rate) are rationals as well.
* Python truthiness is modelled explicitly: `None`, `0.0` and
  `timedelta(0)` and the empty string are falsy.
* The remote `generate_content` call is an injected dependency
  `call : Nat -> CallOutcome` giving the outcome of the n-th attempt
  (1-based); `CallOutcome.success` carries `response.parsed`, which is
  `some t` when the payload parsed into a `VideoTranscription` and
  `none` otherwise; `CallOutcome.failure` carries the raised exception.
* String primitives (`startswith`, `removeprefix`, substring test) are
  modelled over the character list of the string so that every
  definition reduces by kernel computation.
-/

namespace Transcriber

/-- Python `s.startswith(pre)` on character lists. -/
def charsLead : List Char → List Char → Bool
  | [], _ => true
  | _ :: _, [] => false
  | p :: ps, c :: cs => p == c && charsLead ps cs

/-- Python `pat in s` (substring containment) on character lists. -/
def charsHave (pat : List Char) : List Char → Bool
  | [] => charsLead pat []
  | c :: cs => charsLead pat (c :: cs) || charsHave pat cs

/-- Python `s.startswith(pre)`. -/
def strLead (pre s : String) : Bool := charsLead pre.toList s.toList

/-- Python `pat in s`. -/
def strHasSub (s pat : String) : Bool := charsHave pat.toList s.toList

namespace Config

/-- `Config.DEFAULT_MODEL` from `src/config.py`. -/
def DEFAULT_MODEL : String := "gemini-2.0-flash"

/-- `Config.MIN_FPS` from `src/config.py`. -/
def MIN_FPS : ℚ := 1 / 10

/-- `Config.MAX_FPS` from `src/config.py`. -/
def MAX_FPS : ℚ := 24

/-- `Config.DEFAULT_TIMECODE_FORMAT` from `src/config.py`. -/
def DEFAULT_TIMECODE_FORMAT : String := "MM:SS"

/-- `Config.EXTENDED_TIMECODE_FORMAT` from `src/config.py`. -/
def EXTENDED_TIMECODE_FORMAT : String := "H:MM:SS"

end Config

/-- `TranscriptSegment` from `src/models.py` (pydantic model). -/
structure TranscriptSegment where
  start_time : String
  end_time : String
  text : String
  voice_id : Int
  emotion : Option String := none
  tone : Option String := none
  energy_level : Option String := none
  speech_rate : Option String := none
deriving DecidableEq

/-- `Speaker` from `src/models.py` (pydantic model). -/
structure Speaker where
  voice_id : Int
  name : String
  company : String
  position : String
  role_in_video : String
deriving DecidableEq

/-- `TranslationTable` from `src/models.py` (pydantic model). -/
structure TranslationTable where
  line_number : Int
  speaker : String
  source_iso : String
  target_iso : String
deriving DecidableEq

/-- `VideoTranscription` from `src/models.py` (pydantic model); the field
defaults are the pydantic defaults, so `{}` is `VideoTranscription()`. -/
structure VideoTranscription where
  script_segments : List TranscriptSegment := []
  speakers : List Speaker := []
  translation_table : List TranslationTable := []
  video_duration : Option String := none
  total_segments : Int := 0
  total_speakers : Int := 0
  language_detected : Option String := none
deriving DecidableEq

/-- `VideoTranscription.update_counts` from `src/models.py`; the Python
method mutates `self`, here it returns the updated aggregate. -/
def VideoTranscription.update_counts (t : VideoTranscription) : VideoTranscription :=
  { t with
    total_segments := (t.script_segments.length : Int)
    total_speakers := (t.speakers.length : Int) }

/-- The speaker-lookup loop of `VideoTranscription.get_segments_by_speaker`
(`for s in self.speakers: if s.name == speaker_name: speaker = s; break`). -/
def findSpeakerLoop (speaker_name : String) : List Speaker → Option Speaker
  | [] => none
  | s :: rest => if s.name = speaker_name then some s else findSpeakerLoop speaker_name rest

/-- The segment-collection loop of `VideoTranscription.get_segments_by_speaker`
(append each segment whose `voice_id` equals the resolved speaker's). -/
def collectSegments (vid : Int) : List TranscriptSegment → List TranscriptSegment
  | [] => []
  | seg :: rest =>
    if seg.voice_id = vid then seg :: collectSegments vid rest
    else collectSegments vid rest

/-- `VideoTranscription.get_segments_by_speaker` from `src/models.py`. -/
def VideoTranscription.get_segments_by_speaker
    (t : VideoTranscription) (speaker_name : String) : List TranscriptSegment :=
  match findSpeakerLoop speaker_name t.speakers with
  | some speaker => collectSegments speaker.voice_id t.script_segments
  | none => []

/-- `VideoTranscription.get_speaker_by_voice_id` from `src/models.py`. -/
def VideoTranscription.get_speaker_by_voice_id
    (t : VideoTranscription) (vid : Int) : Option Speaker :=
  go vid t.speakers
where go (vid : Int) : List Speaker → Option Speaker
  | [] => none
  | s :: rest => if s.voice_id = vid then some s else go vid rest

/-- `FileData` of the video part (`file_uri`, `mime_type`). -/
structure FileData where
  file_uri : String
  mime_type : String
deriving DecidableEq

/-- `VideoMetadata` of the video part. The Python code stores the offsets
as strings `f"{seconds}s"`; the embedding keeps the rational number of
seconds (`none` when the attribute is left unset). -/
structure VideoMetadata where
  start_offset : Option ℚ := none
  end_offset : Option ℚ := none
  fps : Option ℚ := none
deriving DecidableEq

/-- A `Part` holding a video reference. -/
structure Part where
  file_data : FileData
  video_metadata : VideoMetadata
deriving DecidableEq

/-- The cloud-storage rewriting step at the top of
`VideoTranscriber.get_video_part` (`src/transcriber.py` line 89-90):
when not on Vertex AI and the URI starts with `gs://`, it is rewritten
to `https://storage.googleapis.com/` followed by the rest. -/
def resolve_uri (vertexai : Bool) (video_uri : String) : String :=
  if !vertexai && strLead "gs://" video_uri then
    "https://storage.googleapis.com/" ++ String.mk (video_uri.toList.drop 5)
  else video_uri

/-- Python truthiness filter used by `if start_offset:` etc. on a
`timedelta`/float value: the attribute is set only when the value is
present and nonzero. -/
def optTruthy (x : Option ℚ) : Option ℚ :=
  match x with
  | some v => if v ≠ 0 then some v else none
  | none => none

/-- `VideoTranscriber.get_video_part` from `src/transcriber.py`.
`vertexai` is `self.client.vertexai`. -/
def get_video_part (vertexai : Bool) (video_uri : String)
    (start_offset end_offset fps : Option ℚ) : Option Part :=
  let uri := resolve_uri vertexai video_uri
  if !vertexai && !strLead "https://www.youtube.com/watch?v=" uri then
    none
  else
    some
      { file_data := { file_uri := uri, mime_type := "video/*" }
        video_metadata :=
          { start_offset := optTruthy start_offset
            end_offset := optTruthy end_offset
            fps := optTruthy fps } }

/-- `VideoTranscriber.get_timecode_format` from `src/transcriber.py`:
`if video_duration and video_duration >= timedelta(hours=1)` selects the
extended format, otherwise the default one. -/
def get_timecode_format (video_duration : Option ℚ) : String :=
  match video_duration with
  | some d =>
    if d ≠ 0 ∧ 3600 ≤ d then Config.EXTENDED_TIMECODE_FORMAT
    else Config.DEFAULT_TIMECODE_FORMAT
  | none => Config.DEFAULT_TIMECODE_FORMAT

/-- The duration expression at `src/transcriber.py` line 212:
`end_offset - start_offset if start_offset and end_offset else None`
(Python truthiness: a zero offset counts as absent). -/
def windowed_duration (start_offset end_offset : Option ℚ) : Option ℚ :=
  match start_offset, end_offset with
  | some s, some e => if s ≠ 0 ∧ e ≠ 0 then some (e - s) else none
  | _, _ => none

/-- The exception raised by a remote attempt: either a
`google.genai.errors.ClientError` with HTTP status `code` and optional
`message`, or any other exception. -/
inductive ApiError where
  | clientError (code : Int) (message : Option String)
  | otherError (info : String)
deriving DecidableEq

/-- Outcome of one `generate_content` attempt: success carries
`response.parsed` (`none` when the payload did not parse into a
`VideoTranscription`), failure carries the raised exception. -/
inductive CallOutcome where
  | success (parsed : Option VideoTranscription)
  | failure (err : ApiError)
deriving DecidableEq

/-- `VideoTranscriber._should_retry_request` from `src/transcriber.py`,
applied to the exception of a failed attempt: retry when the error is a
`ClientError` with code 400 and a truthy message containing
`" try again "`, or with code 429. -/
def should_retry_request : ApiError → Bool
  | .clientError code message =>
    let msgOk : Bool :=
      match message with
      | some m => m != "" && strHasSub m " try again "
      | none => false
    if code == 400 && msgOk then true
    else if code == 429 then true
    else false
  | .otherError _ => false

/-- `tenacity.wait_incrementing(start=10, increment=1)`: the wait after
the failure of attempt number `n` (1-based) is `start + increment*(n-1)`
seconds. -/
def wait_incrementing (start increment : ℚ) (attempt_number : Nat) : ℚ :=
  start + increment * ((attempt_number - 1 : Nat) : ℚ)

/-- Decidable equality for `Except`, needed to decide concrete runs of
the retrying invoker. -/
instance exceptDecEq {ε α : Type} [DecidableEq ε] [DecidableEq α] :
    DecidableEq (Except ε α) := fun x y =>
  match x, y with
  | .ok a, .ok b =>
    if h : a = b then isTrue (by rw [h])
    else isFalse (by intro hh; cases hh; exact h rfl)
  | .error a, .error b =>
    if h : a = b then isTrue (by rw [h])
    else isFalse (by intro hh; cases hh; exact h rfl)
  | .ok _, .error _ => isFalse (by intro hh; cases hh)
  | .error _, .ok _ => isFalse (by intro hh; cases hh)

/-- Trace of one run of the retrying invoker: the final result (the
parsed payload of the successful attempt, or the exception re-raised
unchanged), the number of attempts actually made, and the backoff waits
slept between consecutive attempts, in order. -/
structure RetryTrace where
  result : Except ApiError (Option VideoTranscription)
  attempts : Nat
  waits : List ℚ
deriving DecidableEq

/-- The `tenacity.Retrying` loop of `VideoTranscriber.get_retrier`
(`stop_after_attempt(7)`, `wait_incrementing(start=10, increment=1)`,
`retry=_should_retry_request`, `reraise=True`), with `fuel` the number
of attempts still allowed and `n` the 1-based number of the current
attempt. -/
def retryLoop (call : Nat → CallOutcome) : Nat → Nat → RetryTrace
  | 0, n => ⟨.error (.otherError "unreachable"), n - 1, []⟩
  | fuel + 1, n =>
    match call n with
    | .success parsed => ⟨.ok parsed, n, []⟩
    | .failure err =>
      if should_retry_request err && fuel != 0 then
        let t := retryLoop call fuel (n + 1)
        ⟨t.result, t.attempts, wait_incrementing 10 1 n :: t.waits⟩
      else ⟨.error err, n, []⟩

/-- Running `VideoTranscriber.get_retrier()` over the injected remote
call: at most 7 total attempts starting at attempt 1. -/
def get_retrier_run (call : Nat → CallOutcome) : RetryTrace :=
  retryLoop call 7 1

/-- `VideoTranscriber._parse_response` from `src/transcriber.py`:
when `response.parsed` is not a `VideoTranscription` return the empty
aggregate `VideoTranscription()`, otherwise refresh the counts. -/
def parse_response (parsed : Option VideoTranscription) : VideoTranscription :=
  match parsed with
  | none => {}
  | some t => t.update_counts

/-- The FPS validation at `src/transcriber.py` line 200:
`if fps and (fps < Config.MIN_FPS or fps > Config.MAX_FPS)` (Python
truthiness: `fps == 0.0` is falsy and skips the check). -/
def fps_out_of_range (fps : Option ℚ) : Bool :=
  match fps with
  | some f => (f != 0) && (decide (f < Config.MIN_FPS) || decide (Config.MAX_FPS < f))
  | none => false

/-- The errors `transcribe_video` can raise: the `ValueError` of the FPS
validation, or the exception propagated out of the retry loop. -/
inductive TError where
  | valueError (msg : String)
  | apiError (err : ApiError)
deriving DecidableEq

/-- Result of `VideoTranscriber.transcribe_video`: the returned
aggregate or raised error, together with the number of
`generate_content` network calls that were made. -/
structure TResult where
  result : Except TError VideoTranscription
  calls : Nat
deriving DecidableEq

/-- The `ValueError` message of the FPS validation. -/
def fpsErrorMsg : String := "FPS must be between 0.1 and 24.0"

/-- `VideoTranscriber.transcribe_video` from `src/transcriber.py`:
validate the FPS, build the video part (returning the empty aggregate
with zero network calls when the builder refuses), then run the remote
call under the retrier and interpret the response. -/
def transcribe_video (vertexai : Bool) (video_uri : String)
    (start_offset end_offset fps : Option ℚ)
    (call : Nat → CallOutcome) : TResult :=
  if fps_out_of_range fps then
    ⟨.error (.valueError fpsErrorMsg), 0⟩
  else
    match get_video_part vertexai video_uri start_offset end_offset fps with
    | none => ⟨.ok {}, 0⟩
    | some _ =>
      let trace := get_retrier_run call
      match trace.result with
      | .error e => ⟨.error (.apiError e), trace.attempts⟩
      | .ok parsed => ⟨.ok (parse_response parsed), trace.attempts⟩

/-! ## External JSON form of the data model

Pydantic serializes a model to a JSON object with one member per field
(`model_dump_json`) and validates JSON back into the model
(`model_validate_json`): required fields must be present with the right
type, optional fields fall back to their declared defaults. -/

/-- JSON values (numbers restricted to integers, which is all the data
model uses). -/
inductive Json where
  | null
  | str (s : String)
  | num (n : Int)
  | arr (xs : List Json)
  | obj (fields : List (String × Json))

/-- Member lookup in a JSON object (first binding wins). -/
def jget : List (String × Json) → String → Option Json
  | [], _ => none
  | (k, v) :: rest, key => if k = key then some v else jget rest key

/-- Serialization of a Python `Optional[str]` field. -/
def optStrJson : Option String → Json
  | none => .null
  | some s => .str s

/-- Validation of a required `str` field. -/
def asStr : Option Json → Option String
  | some (.str s) => some s
  | _ => none

/-- Validation of a required `int` field. -/
def asInt : Option Json → Option Int
  | some (.num n) => some n
  | _ => none

/-- Validation of an `int` field with a declared default. -/
def asIntD (dflt : Int) : Option Json → Option Int
  | some (.num n) => some n
  | none => some dflt
  | _ => none

/-- Validation of an `Optional[str]` field (default `None`). -/
def asOptStr : Option Json → Option (Option String)
  | some (.str s) => some (some s)
  | some .null => some none
  | none => some none
  | _ => none

/-- Validation of a `List[...]` field with `default_factory=list`. -/
def asList : Option Json → Option (List Json)
  | some (.arr xs) => some xs
  | none => some []
  | _ => none

/-- Validate every element of a JSON array. -/
def parseList {α : Type} (f : Json → Option α) : List Json → Option (List α)
  | [] => some []
  | x :: xs => do
    let a ← f x
    let rest ← parseList f xs
    some (a :: rest)

/-- Serialization of a `TranscriptSegment`. -/
def TranscriptSegment.toJson (x : TranscriptSegment) : Json :=
  .obj
    [("start_time", .str x.start_time), ("end_time", .str x.end_time),
     ("text", .str x.text), ("voice_id", .num x.voice_id),
     ("emotion", optStrJson x.emotion), ("tone", optStrJson x.tone),
     ("energy_level", optStrJson x.energy_level),
     ("speech_rate", optStrJson x.speech_rate)]

/-- Validation of a `TranscriptSegment` from JSON. -/
def TranscriptSegment.fromJson : Json → Option TranscriptSegment
  | .obj fs => do
    let st ← asStr (jget fs "start_time")
    let et ← asStr (jget fs "end_time")
    let tx ← asStr (jget fs "text")
    let vid ← asInt (jget fs "voice_id")
    let em ← asOptStr (jget fs "emotion")
    let tn ← asOptStr (jget fs "tone")
    let el ← asOptStr (jget fs "energy_level")
    let sr ← asOptStr (jget fs "speech_rate")
    some ⟨st, et, tx, vid, em, tn, el, sr⟩
  | _ => none

/-- Serialization of a `Speaker`. -/
def Speaker.toJson (x : Speaker) : Json :=
  .obj
    [("voice_id", .num x.voice_id), ("name", .str x.name),
     ("company", .str x.company), ("position", .str x.position),
     ("role_in_video", .str x.role_in_video)]

/-- Validation of a `Speaker` from JSON. -/
def Speaker.fromJson : Json → Option Speaker
  | .obj fs => do
    let vid ← asInt (jget fs "voice_id")
    let nm ← asStr (jget fs "name")
    let co ← asStr (jget fs "company")
    let po ← asStr (jget fs "position")
    let ro ← asStr (jget fs "role_in_video")
    some ⟨vid, nm, co, po, ro⟩
  | _ => none

/-- Serialization of a `TranslationTable` entry. -/
def TranslationTable.toJson (x : TranslationTable) : Json :=
  .obj
    [("line_number", .num x.line_number), ("speaker", .str x.speaker),
     ("source_iso", .str x.source_iso), ("target_iso", .str x.target_iso)]

/-- Validation of a `TranslationTable` entry from JSON. -/
def TranslationTable.fromJson : Json → Option TranslationTable
  | .obj fs => do
    let ln ← asInt (jget fs "line_number")
    let sp ← asStr (jget fs "speaker")
    let si ← asStr (jget fs "source_iso")
    let ti ← asStr (jget fs "target_iso")
    some ⟨ln, sp, si, ti⟩
  | _ => none

/-- Serialization of a `VideoTranscription` aggregate. -/
def VideoTranscription.toJson (t : VideoTranscription) : Json :=
  .obj
    [("script_segments", .arr (t.script_segments.map TranscriptSegment.toJson)),
     ("speakers", .arr (t.speakers.map Speaker.toJson)),
     ("translation_table", .arr (t.translation_table.map TranslationTable.toJson)),
     ("video_duration", optStrJson t.video_duration),
     ("total_segments", .num t.total_segments),
     ("total_speakers", .num t.total_speakers),
     ("language_detected", optStrJson t.language_detected)]

/-- Validation of a `VideoTranscription` aggregate from JSON. -/
def VideoTranscription.fromJson : Json → Option VideoTranscription
  | .obj fs => do
    let segsJ ← asList (jget fs "script_segments")
    let segs ← parseList TranscriptSegment.fromJson segsJ
    let spksJ ← asList (jget fs "speakers")
    let spks ← parseList Speaker.fromJson spksJ
    let trsJ ← asList (jget fs "translation_table")
    let trs ← parseList TranslationTable.fromJson trsJ
    let vd ← asOptStr (jget fs "video_duration")
    let ts ← asIntD 0 (jget fs "total_segments")
    let tsp ← asIntD 0 (jget fs "total_speakers")
    let ld ← asOptStr (jget fs "language_detected")
    some ⟨segs, spks, trs, vd, ts, tsp, ld⟩
  | _ => none

/-! ## Concrete fixtures used by counterexamples and witnesses -/

/-- A remote call that always succeeds with an empty parsed payload. -/
def callEmptySuccess : Nat → CallOutcome := fun _ => .success (some {})

/-- A remote call that always fails with a 429 rate-limit error. -/
def callAlways429 : Nat → CallOutcome := fun _ => .failure (.clientError 429 none)

/-- A remote call that always fails with a non-client-level error. -/
def callFatal : Nat → CallOutcome := fun _ => .failure (.otherError "boom")

/-- A transcript segment fixture. -/
def sampleSeg : TranscriptSegment :=
  { start_time := "00:00", end_time := "00:05", text := "hello", voice_id := 1 }

/-- An aggregate built with 3 segments but an intentionally wrong
embedded count of 99. -/
def aggregate99 : VideoTranscription :=
  { script_segments := [sampleSeg, sampleSeg, sampleSeg], total_segments := 99 }

/-- Segment by voice 1. -/
def janeSeg1 : TranscriptSegment :=
  { start_time := "00:00", end_time := "00:05", text := "hi", voice_id := 1 }

/-- Segment by voice 3. -/
def janeSeg2 : TranscriptSegment :=
  { start_time := "00:05", end_time := "00:09", text := "hello", voice_id := 3 }

/-- Another segment by voice 1. -/
def janeSeg3 : TranscriptSegment :=
  { start_time := "00:09", end_time := "00:12", text := "bye", voice_id := 1 }

/-- First speaker named Jane (voice 1). -/
def janeA : Speaker :=
  { voice_id := 1, name := "Jane", company := "?", position := "?", role_in_video := "Host" }

/-- Second speaker named Jane (voice 3). -/
def janeB : Speaker :=
  { voice_id := 3, name := "Jane", company := "?", position := "?", role_in_video := "Guest" }

/-- A transcription with two speakers sharing the name Jane. -/
def janeTranscription : VideoTranscription :=
  { script_segments := [janeSeg1, janeSeg2, janeSeg3], speakers := [janeA, janeB] }

end Transcriber

namespace Transcriber

/-! ## Helper lemmas -/

/-- The speaker-lookup loop is `List.find?` on the name. -/
theorem findSpeakerLoop_eq_find (name : String) :
    ∀ l : List Speaker, findSpeakerLoop name l = l.find? (fun s => s.name == name)
  | [] => rfl
  | s :: rest => by
    by_cases h : s.name = name
    · have hb : (s.name == name) = true := by simp [h]
      simp [findSpeakerLoop, List.find?, h, hb]
    · have hb : (s.name == name) = false := by simp [h]
      simp [findSpeakerLoop, List.find?, h, hb, findSpeakerLoop_eq_find name rest]

/-- The segment-collection loop is `List.filter` on the voice id. -/
theorem collectSegments_eq_filter (vid : Int) :
    ∀ l : List TranscriptSegment,
      collectSegments vid l = l.filter (fun seg => seg.voice_id == vid)
  | [] => rfl
  | seg :: rest => by
    by_cases h : seg.voice_id = vid
    · have hb : (seg.voice_id == vid) = true := by simp [h]
      simp [collectSegments, List.filter, h, hb, collectSegments_eq_filter vid rest]
    · have hb : (seg.voice_id == vid) = false := by simp [h]
      simp [collectSegments, List.filter, h, hb, collectSegments_eq_filter vid rest]

/-- When no speaker bears the requested name, the lookup loop finds
nothing. -/
theorem findSpeakerLoop_eq_none (name : String) :
    ∀ l : List Speaker, (∀ s ∈ l, s.name ≠ name) → findSpeakerLoop name l = none
  | [] => fun _ => rfl
  | s :: rest => fun h => by
    have hs : s.name ≠ name := h s (by simp)
    simp only [findSpeakerLoop, hs, if_false]
    exact findSpeakerLoop_eq_none name rest (fun x hx => h x (by simp [hx]))

/-- Round trip of an `Optional[str]` field through its JSON form. -/
theorem asOptStr_optStrJson (o : Option String) : asOptStr (some (optStrJson o)) = some o := by
  cases o <;> rfl

/-- Round trip of a `TranscriptSegment` through its JSON form. -/
theorem seg_roundtrip (x : TranscriptSegment) :
    TranscriptSegment.fromJson x.toJson = some x := by
  simp [TranscriptSegment.toJson, TranscriptSegment.fromJson, jget, asStr, asInt,
    asOptStr_optStrJson]

/-- Round trip of a `Speaker` through its JSON form. -/
theorem spk_roundtrip (x : Speaker) : Speaker.fromJson x.toJson = some x := by
  simp [Speaker.toJson, Speaker.fromJson, jget, asStr, asInt]

/-- Round trip of a `TranslationTable` entry through its JSON form. -/
theorem tr_roundtrip (x : TranslationTable) :
    TranslationTable.fromJson x.toJson = some x := by
  simp [TranslationTable.toJson, TranslationTable.fromJson, jget, asStr, asInt]

/-- Elementwise round trip of a serialized JSON array. -/
theorem parseList_map {α : Type} (f : Json → Option α) (g : α → Json)
    (h : ∀ x, f (g x) = some x) : ∀ l : List α, parseList f (l.map g) = some l
  | [] => rfl
  | x :: xs => by
    simp [parseList, h x, parseList_map f g h xs]

/-- Round trip of a `VideoTranscription` aggregate through its JSON
form. -/
theorem vt_roundtrip (t : VideoTranscription) :
    VideoTranscription.fromJson t.toJson = some t := by
  simp [VideoTranscription.toJson, VideoTranscription.fromJson, jget, asList, asIntD,
    asOptStr_optStrJson, parseList_map _ _ seg_roundtrip, parseList_map _ _ spk_roundtrip,
    parseList_map _ _ tr_roundtrip]

/-- The retry loop makes at most `fuel` further attempts. -/
theorem retryLoop_attempts_le (call : Nat → CallOutcome) :
    ∀ fuel n, (retryLoop call fuel n).attempts ≤ n - 1 + fuel := by
  intro fuel
  induction fuel with
  | zero => intro n; simp [retryLoop]
  | succ f ih =>
    intro n
    cases hc : call n with
    | success p => simp [retryLoop, hc]; omega
    | failure e =>
      by_cases hr : (should_retry_request e && f != 0) = true
      · have := ih (n + 1)
        simp [retryLoop, hc, hr]
        omega
      · simp [retryLoop, hc, hr]
        omega

/-- The backoff wait recorded after the failure of attempt `n + k` is
`wait_incrementing 10 1 (n + k)`. -/
theorem retryLoop_waits (call : Nat → CallOutcome) :
    ∀ fuel n k, k < (retryLoop call fuel n).waits.length →
      (retryLoop call fuel n).waits[k]? = some (wait_incrementing 10 1 (n + k)) := by
  intro fuel
  induction fuel with
  | zero => intro n k h; simp [retryLoop] at h
  | succ f ih =>
    intro n k h
    cases hc : call n with
    | success p => simp [retryLoop, hc] at h
    | failure e =>
      by_cases hr : (should_retry_request e && f != 0) = true
      · simp only [retryLoop, hc, hr, if_true] at h ⊢
        cases k with
        | zero => simp
        | succ k2 =>
          simp only [List.getElem?_cons_succ]
          simp only [List.length_cons] at h
          have hlt : k2 < (retryLoop call f (n + 1)).waits.length := by omega
          have := ih (n + 1) k2 hlt
          rw [this]
          have harg : n + 1 + k2 = n + (k2 + 1) := by omega
          rw [harg]
      · simp [retryLoop, hc, hr] at h

/-- When every attempt in range fails with a retryable error, the loop
uses all its fuel and re-raises the error of the final attempt
unchanged. -/
theorem retryLoop_all_retryable (call : Nat → CallOutcome) :
    ∀ fuel n, 1 ≤ fuel →
      (∀ m, n ≤ m → m < n + fuel → ∃ e, call m = .failure e ∧ should_retry_request e = true) →
      ∃ e, call (n + fuel - 1) = .failure e ∧
        (retryLoop call fuel n).result = .error e ∧
        (retryLoop call fuel n).attempts = n + fuel - 1 := by
  intro fuel
  induction fuel with
  | zero => intro n h; omega
  | succ f ih =>
    intro n _ hall
    obtain ⟨e, hc, hr⟩ := hall n (le_refl n) (by omega)
    by_cases hf : f = 0
    · subst hf
      refine ⟨e, by simpa using hc, ?_, ?_⟩
      · simp [retryLoop, hc, hr]
      · simp [retryLoop, hc, hr]
    · have hf2 : (f != 0) = true := by simpa using hf
      obtain ⟨e2, hc2, hres, hatt⟩ :=
        ih (n + 1) (by omega) (fun m hm1 hm2 => hall m (by omega) (by omega))
      have harg : n + 1 + f - 1 = n + (f + 1) - 1 := by omega
      refine ⟨e2, by rw [← harg]; exact hc2, ?_, ?_⟩
      · simp only [retryLoop, hc, hr, hf2, Bool.and_self, if_true]
        exact hres
      · simp only [retryLoop, hc, hr, hf2, Bool.and_self, if_true]
        rw [hatt]
        omega

/-! ## Claims -/

/-- C1 counterexample: under the lightweight backend a direct HTTPS
video URL that is not a YouTube watch URL is refused by
`get_video_part`, while the claim states that an HTTPS URL is
accepted. -/
theorem C1_counterexample :
    get_video_part false "https://example.com/video.mp4" none none none = none ∧
    strLead "https://" "https://example.com/video.mp4" = true ∧
    strLead "https://www.youtube.com/watch?v="
      (resolve_uri false "https://example.com/video.mp4") = false := by
  decide

/-- C1 (amended): under the lightweight backend `get_video_part`
refuses the request if and only if the URI, after gs:// rewriting, is
not a YouTube watch URL (in particular direct non-YouTube HTTPS URLs
are refused too); on refusal `transcribe_video` yields the empty
transcription without raising and with zero network calls. -/
theorem C1_refusal :
    (∀ (uri : String) (s e f : Option ℚ),
      get_video_part false uri s e f = none ↔
        strLead "https://www.youtube.com/watch?v=" (resolve_uri false uri) = false) ∧
    (∀ (uri : String) (s e f : Option ℚ) (call : Nat → CallOutcome),
      fps_out_of_range f = false →
      get_video_part false uri s e f = none →
      transcribe_video false uri s e f call = ⟨.ok {}, 0⟩) := by
  constructor
  · intro uri s e f
    cases hb : strLead "https://www.youtube.com/watch?v=" (resolve_uri false uri) <;>
      simp [get_video_part, hb]
  · intro uri s e f call hf hpart
    simp [transcribe_video, hf, hpart]

/-- C1 witness: the refusal characterization and the soft failure of
`transcribe_video`, applied to the refused HTTPS URL. -/
theorem C1_witness :
    get_video_part false "https://example.com/video.mp4" none none none = none ∧
    transcribe_video false "https://example.com/video.mp4" none none none
      callEmptySuccess = ⟨.ok {}, 0⟩ :=
  ⟨(C1_refusal.1 "https://example.com/video.mp4" none none none).mpr (by decide),
   C1_refusal.2 "https://example.com/video.mp4" none none none callEmptySuccess rfl
     ((C1_refusal.1 "https://example.com/video.mp4" none none none).mpr (by decide))⟩

/-- C2 counterexample: the sampling rate `0.0` satisfies `f < 0.1` but
is falsy in Python, so `transcribe_video` does not raise the
configuration error — it proceeds and even performs a network call. -/
theorem C2_counterexample :
    (0 : ℚ) < Config.MIN_FPS ∧
    transcribe_video false "https://www.youtube.com/watch?v=abc" none none (some 0)
      callEmptySuccess = ⟨.ok {}, 1⟩ := by
  constructor
  · norm_num [Config.MIN_FPS]
  · decide

/-- C2 (amended): for every provided nonzero sampling rate `f` with
`f < 0.1` or `f > 24.0`, `transcribe_video` raises the `ValueError`
synchronously with zero network calls (before the retrying invoker is
entered); a provided `f = 0.0` is falsy and skips the validation; for
`f` within `[0.1, 24.0]`, and when no rate is provided, no such error is
raised. -/
theorem C2_fps_validation :
    (∀ (v : Bool) (uri : String) (s e : Option ℚ) (call : Nat → CallOutcome) (f : ℚ),
      f ≠ 0 → (f < Config.MIN_FPS ∨ Config.MAX_FPS < f) →
      transcribe_video v uri s e (some f) call = ⟨.error (.valueError fpsErrorMsg), 0⟩) ∧
    (∀ (v : Bool) (uri : String) (s e : Option ℚ) (call : Nat → CallOutcome) (f : ℚ),
      Config.MIN_FPS ≤ f → f ≤ Config.MAX_FPS →
      ∀ msg, (transcribe_video v uri s e (some f) call).result ≠ .error (.valueError msg)) ∧
    (∀ (v : Bool) (uri : String) (s e : Option ℚ) (call : Nat → CallOutcome)
      (msg : String),
      (transcribe_video v uri s e none call).result ≠ .error (.valueError msg)) := by
  refine ⟨?_, ?_, ?_⟩
  · intro v uri s e call f hne hout
    have hb : fps_out_of_range (some f) = true := by
      simp only [fps_out_of_range, bne_iff_ne, ne_eq, Bool.and_eq_true, Bool.or_eq_true,
        decide_eq_true_eq]
      exact ⟨by simpa using hne, by simpa using hout⟩
    simp [transcribe_video, hb]
  · intro v uri s e call f hlo hhi msg
    have hb : fps_out_of_range (some f) = false := by
      simp only [fps_out_of_range, Bool.and_eq_false_iff, Bool.or_eq_false_iff,
        decide_eq_false_iff_not, not_lt]
      right
      exact ⟨hlo, hhi⟩
    simp only [transcribe_video, hb, Bool.false_eq_true, if_false]
    cases hpart : get_video_part v uri s e (some f) with
    | none => simp
    | some p =>
      simp only []
      cases hres : (get_retrier_run call).result with
      | error e2 => simp
      | ok parsed => simp
  · intro v uri s e call msg
    have hb : fps_out_of_range none = false := rfl
    simp only [transcribe_video, hb, Bool.false_eq_true, if_false]
    cases hpart : get_video_part v uri s e none with
    | none => simp
    | some p =>
      simp only []
      cases hres : (get_retrier_run call).result with
      | error e2 => simp
      | ok parsed => simp

/-- C2 witness: the out-of-range rate 25 raises with zero calls, and the
in-range rate 1 does not raise the configuration error. -/
theorem C2_witness :
    transcribe_video false "u" none none (some 25) callEmptySuccess =
      ⟨.error (.valueError fpsErrorMsg), 0⟩ ∧
    (transcribe_video false "https://www.youtube.com/watch?v=a" none none (some 1)
      callEmptySuccess).result ≠ .error (.valueError fpsErrorMsg) :=
  ⟨C2_fps_validation.1 false "u" none none callEmptySuccess 25 (by norm_num)
      (Or.inr (by norm_num [Config.MAX_FPS])),
   C2_fps_validation.2.1 false "https://www.youtube.com/watch?v=a" none none
      callEmptySuccess 1 (by norm_num [Config.MIN_FPS]) (by norm_num [Config.MAX_FPS])
      fpsErrorMsg⟩

/-- C3: an error is retried if and only if it is a `ClientError` with
status 429, or a `ClientError` with status 400 whose message contains
the phrase `" try again "`; every other error, including every
non-client-level error, is not retried and propagates immediately after
the single first attempt, with no backoff wait. -/
theorem C3_retry_eligibility :
    (∀ err : ApiError, should_retry_request err = true ↔
      ((∃ m, err = .clientError 429 m) ∨
       (∃ m, err = .clientError 400 (some m) ∧ strHasSub m " try again " = true))) ∧
    (∀ (call : Nat → CallOutcome) (err : ApiError), call 1 = .failure err →
      should_retry_request err = false →
      get_retrier_run call = ⟨.error err, 1, []⟩) := by
  constructor
  · intro err
    cases err with
    | otherError s => simp [should_retry_request]
    | clientError code msg =>
      cases msg with
      | none =>
        simp only [should_retry_request, Bool.and_false, Bool.false_eq_true, if_false]
        by_cases h9 : code = 429 <;> simp [h9]
      | some m =>
        simp only [should_retry_request]
        by_cases h4 : code = 400
        · subst h4
          by_cases hsub : strHasSub m " try again " = true
          · have hm : m ≠ "" := by
              intro hm0
              rw [hm0] at hsub
              exact absurd hsub (by decide)
            have hmb : (m != "") = true := by simpa using hm
            simp [hmb, hsub]
          · have hsub2 : strHasSub m " try again " = false :=
              Bool.eq_false_iff.mpr hsub
            simp [hsub2]
        · have h4b : (code == 400) = false := by simpa using h4
          by_cases h9 : code = 429 <;> simp [h4b, h4, h9]
  · intro call err hc hr
    simp [get_retrier_run, retryLoop, hc, hr]

/-- C3 witness: a non-client-level error on attempt 1 propagates
immediately, after exactly one attempt and no wait. -/
theorem C3_witness :
    should_retry_request (.otherError "boom") = false ∧
    get_retrier_run callFatal = ⟨.error (.otherError "boom"), 1, []⟩ :=
  ⟨by decide,
   C3_retry_eligibility.2 callFatal (.otherError "boom") rfl (by decide)⟩

/-- C4: the retrying invoker makes at most 7 total attempts; the wait
before the `(k+1)`-th retry is the base delay 10 plus `k` times the
increment 1; and when every attempt fails with a retryable error, the
original error of the 7th and final attempt is re-raised unchanged
after exactly 7 attempts. -/
theorem C4_retrier_bounds :
    (∀ call : Nat → CallOutcome, (get_retrier_run call).attempts ≤ 7) ∧
    (∀ (call : Nat → CallOutcome) (k : Nat), k < (get_retrier_run call).waits.length →
      (get_retrier_run call).waits[k]? = some (10 + (k : ℚ))) ∧
    (∀ call : Nat → CallOutcome,
      (∀ m, 1 ≤ m → m ≤ 7 → ∃ e, call m = .failure e ∧ should_retry_request e = true) →
      ∃ e, call 7 = .failure e ∧ (get_retrier_run call).result = .error e ∧
        (get_retrier_run call).attempts = 7) := by
  refine ⟨?_, ?_, ?_⟩
  · intro call
    have := retryLoop_attempts_le call 7 1
    simpa [get_retrier_run] using this
  · intro call k hk
    have := retryLoop_waits call 7 1 k (by simpa [get_retrier_run] using hk)
    unfold get_retrier_run at this ⊢
    rw [this]
    have harg : (1 + k - 1 : Nat) = k := by omega
    simp [wait_incrementing, harg]
  · intro call hall
    obtain ⟨e, hc, hres, hatt⟩ :=
      retryLoop_all_retryable call 7 1 (by omega)
        (fun m hm1 hm2 => hall m hm1 (by omega))
    exact ⟨e, by simpa using hc, by simpa [get_retrier_run] using hres,
      by simpa [get_retrier_run] using hatt⟩

/-- C4 witness: seven consecutive retryable 429 failures exhaust the
invoker, which re-raises the original error after exactly 7 attempts. -/
theorem C4_witness :
    (get_retrier_run callAlways429).attempts ≤ 7 ∧
    (get_retrier_run callAlways429).result = .error (.clientError 429 none) ∧
    (get_retrier_run callAlways429).attempts = 7 := by
  obtain ⟨e, hc, hres, hatt⟩ :=
    C4_retrier_bounds.2.2 callAlways429
      (fun m _ _ => ⟨.clientError 429 none, rfl, by decide⟩)
  have he : ApiError.clientError 429 none = e := by
    have := hc
    simpa [callAlways429] using this
  exact ⟨C4_retrier_bounds.1 callAlways429, he ▸ hres, hatt⟩

/-- C7 counterexample: with both offsets given as 0 s and 7200 s the
claim's relevant duration is 2 hours, yet the code treats the zero
start offset as absent and selects the default format. -/
theorem C7_counterexample :
    windowed_duration (some 0) (some 7200) = none ∧
    get_timecode_format (windowed_duration (some 0) (some 7200)) =
      Config.DEFAULT_TIMECODE_FORMAT ∧
    (3600 : ℚ) ≤ (7200 : ℚ) - 0 ∧
    Config.DEFAULT_TIMECODE_FORMAT ≠ Config.EXTENDED_TIMECODE_FORMAT := by
  refine ⟨by decide, by decide, by norm_num, by decide⟩

/-- C7 (amended): the extended format is selected exactly when the
relevant duration is known and at least 1 hour; the relevant duration is
`end_offset - start_offset` when both offsets are given and nonzero, and
unknown when either offset is missing or zero (Python truthiness). -/
theorem C7_timecode_selection :
    (∀ d : ℚ, get_timecode_format (some d) = Config.EXTENDED_TIMECODE_FORMAT ↔ 3600 ≤ d) ∧
    (∀ d : ℚ, get_timecode_format (some d) = Config.DEFAULT_TIMECODE_FORMAT ↔ d < 3600) ∧
    get_timecode_format none = Config.DEFAULT_TIMECODE_FORMAT ∧
    (∀ s e : ℚ, s ≠ 0 → e ≠ 0 →
      windowed_duration (some s) (some e) = some (e - s)) ∧
    (∀ e : Option ℚ, windowed_duration (some 0) e = none) ∧
    (∀ s : Option ℚ, windowed_duration s (some 0) = none) ∧
    (∀ e : Option ℚ, windowed_duration none e = none) ∧
    (∀ s : Option ℚ, windowed_duration s none = none) := by
  refine ⟨?_, ?_, rfl, ?_, ?_, ?_, ?_, ?_⟩
  · intro d
    by_cases h : d ≠ 0 ∧ 3600 ≤ d
    · rw [get_timecode_format, if_pos h]
      exact ⟨fun _ => h.2, fun _ => rfl⟩
    · rw [get_timecode_format, if_neg h]
      constructor
      · intro hEq
        exact absurd hEq (by decide)
      · intro h36
        have hd0 : d ≠ 0 := by
          have : (0 : ℚ) < d := lt_of_lt_of_le (by norm_num) h36
          exact this.ne'
        exact absurd ⟨hd0, h36⟩ h
  · intro d
    by_cases h : d ≠ 0 ∧ 3600 ≤ d
    · rw [get_timecode_format, if_pos h]
      exact iff_of_false (by decide) (not_lt.mpr h.2)
    · rw [get_timecode_format, if_neg h]
      refine iff_of_true rfl ?_
      by_cases hd : d = 0
      · rw [hd]; norm_num
      · push_neg at h
        exact h hd
  · intro s e hs he
    simp [windowed_duration, hs, he]
  · intro e
    cases e with
    | none => rfl
    | some v => simp [windowed_duration]
  · intro s
    cases s with
    | none => rfl
    | some v => simp [windowed_duration]
  · intro e; rfl
  · intro s
    cases s with
    | none => rfl
    | some v => rfl

/-- C7 witness: a 2-hour window starting at a nonzero offset selects the
extended format, and a known duration below one hour selects the
default. -/
theorem C7_witness :
    windowed_duration (some 10) (some 7210) = some 7200 ∧
    get_timecode_format (some 7200) = Config.EXTENDED_TIMECODE_FORMAT ∧
    get_timecode_format (some 60) = Config.DEFAULT_TIMECODE_FORMAT :=
  ⟨by rw [C7_timecode_selection.2.2.2.1 10 7210 (by norm_num) (by norm_num)]; norm_num,
   (C7_timecode_selection.1 7200).mpr (by norm_num),
   (C7_timecode_selection.2.1 60).mpr (by norm_num)⟩

/-- C5: after parsing a model response (`_parse_response` applies
`update_counts`), `total_segments` equals the length of
`script_segments` and `total_speakers` the length of `speakers`,
recomputed from the actual lists; an aggregate built with 3 segments and
an embedded count of 99 ends with `total_segments = 3` after the
count-refresh step. -/
theorem C5_counts_recomputed :
    (∀ t : VideoTranscription,
      (t.update_counts).total_segments = (t.script_segments.length : Int) ∧
      (t.update_counts).total_speakers = (t.speakers.length : Int)) ∧
    (∀ t : VideoTranscription, parse_response (some t) = t.update_counts) ∧
    aggregate99.script_segments.length = 3 ∧
    aggregate99.total_segments = 99 ∧
    (aggregate99.update_counts).total_segments = 3 :=
  ⟨fun _ => ⟨rfl, rfl⟩, fun _ => rfl, rfl, rfl, rfl⟩

/-- C6: when the payload does not parse into a `VideoTranscription`
(`response.parsed` is not of that type), the response interpreter
returns the empty aggregate — zero segments, zero speakers,
`total_segments = 0` — instead of raising. -/
theorem C6_unparseable_empty :
    parse_response none = {} ∧
    (parse_response none).script_segments = [] ∧
    (parse_response none).speakers = [] ∧
    (parse_response none).total_segments = 0 ∧
    (parse_response none).total_speakers = 0 :=
  ⟨rfl, rfl, rfl, rfl, rfl⟩

/-- C9: serializing a `VideoTranscription` to its external JSON form and
parsing it back yields an aggregate with identical
`total_segments`/`total_speakers` and identical segment, speaker and
translation entries. -/
theorem C9_roundtrip :
    ∀ t : VideoTranscription, ∃ t2 : VideoTranscription,
      VideoTranscription.fromJson t.toJson = some t2 ∧
      t2.total_segments = t.total_segments ∧
      t2.total_speakers = t.total_speakers ∧
      t2.script_segments = t.script_segments ∧
      t2.speakers = t.speakers ∧
      t2.translation_table = t.translation_table :=
  fun t => ⟨t, vt_roundtrip t, rfl, rfl, rfl, rfl, rfl⟩

/-- C8: `get_segments_by_speaker` resolves the speaker as the first
element of `speakers` whose name equals the given name and returns
exactly the segments carrying that speaker's `voice_id`; with two
speakers both named Jane (voice 1 and voice 3), only the voice-1
segments are returned. -/
theorem C8_first_match_wins :
    (∀ (t : VideoTranscription) (name : String) (spk : Speaker),
      t.speakers.find? (fun s => s.name == name) = some spk →
      t.get_segments_by_speaker name =
        t.script_segments.filter (fun seg => seg.voice_id == spk.voice_id)) ∧
    janeA.name = "Jane" ∧ janeB.name = "Jane" ∧
    janeA.voice_id = 1 ∧ janeB.voice_id = 3 ∧
    janeTranscription.get_segments_by_speaker "Jane" = [janeSeg1, janeSeg3] := by
  refine ⟨fun t name spk h => ?_, rfl, rfl, rfl, rfl, by decide⟩
  unfold VideoTranscription.get_segments_by_speaker
  rw [findSpeakerLoop_eq_find, h]
  show collectSegments spk.voice_id t.script_segments = _
  rw [collectSegments_eq_filter]

/-- C8 witness: the general first-match characterization applied to the
two-Jane fixture. -/
theorem C8_witness :
    janeTranscription.get_segments_by_speaker "Jane" =
      janeTranscription.script_segments.filter (fun seg => seg.voice_id == janeA.voice_id) :=
  C8_first_match_wins.1 janeTranscription "Jane" janeA (by decide)

/-- C10 (implicit): when no speaker's name matches, the lookup returns
the empty list without raising and without matching segments directly;
and in all cases the returned segments appear in the same relative order
as in `script_segments` (the result is a sublist of it). -/
theorem C10_no_match_empty_and_order :
    (∀ (t : VideoTranscription) (name : String),
      (∀ s ∈ t.speakers, s.name ≠ name) → t.get_segments_by_speaker name = []) ∧
    (∀ (t : VideoTranscription) (name : String),
      (t.get_segments_by_speaker name).Sublist t.script_segments) := by
  constructor
  · intro t name h
    unfold VideoTranscription.get_segments_by_speaker
    rw [findSpeakerLoop_eq_none name t.speakers h]
  · intro t name
    unfold VideoTranscription.get_segments_by_speaker
    match hf : findSpeakerLoop name t.speakers with
    | some spk =>
      show (collectSegments spk.voice_id t.script_segments).Sublist t.script_segments
      rw [collectSegments_eq_filter]
      exact List.filter_sublist _
    | none => exact List.nil_sublist _

/-- C10 witness: no speaker of the two-Jane fixture is named Bob, so the
lookup returns the empty list, and the Jane lookup is a sublist of the
segment list. -/
theorem C10_witness :
    janeTranscription.get_segments_by_speaker "Bob" = [] ∧
    (janeTranscription.get_segments_by_speaker "Jane").Sublist
      janeTranscription.script_segments :=
  ⟨C10_no_match_empty_and_order.1 janeTranscription "Bob" (by decide),
   C10_no_match_empty_and_order.2 janeTranscription "Jane"⟩

end Transcriber
